import Mathlib

/-!
# Verification of the Kaizen Energy integration core

Shallow embedding of `custom_components/kaizen_energy/api.py` (the Tridens
API client: token lifecycle, authenticated request execution with a single
retry on 401/403, the dependent-data resolution chain, and the consumption
fetcher) and of `custom_components/kaizen_energy/sensor.py` (the daily
aggregation in `KaizenEnergySensor.async_calculate_statistic_data`).

Python floats on the data path only ever carry decimal literals and sums,
differences and quotients of them, so numeric values are embedded as
rationals; timestamps are embedded as the exact epoch values the source
computes. HTTP exchanges are modelled by a stub transport scripting the
responses in call order, in the style of the testable properties the
specification lists.
-/

namespace KaizenEnergy

/-! ## Aggregation engine (`sensor.py`)

The aggregation only ever truncates a reading timestamp with
`.replace(hour=0, minute=0, second=0, microsecond=0)` and compares the
truncations for equality, so a record with the seven `datetime` components
is a faithful embedding of the naive local `datetime` it handles. -/

structure PyDateTime where
  year : Int
  month : Int
  day : Int
  hour : Int
  minute : Int
  second : Int
  microsecond : Int
deriving DecidableEq, Repr

structure HistoricalState where
  dt : PyDateTime
  state : ℚ
deriving DecidableEq, Repr

structure StatisticData where
  start : PyDateTime
  state : ℚ
  sum : ℚ
deriving DecidableEq, Repr

/-- The key function `day_block_for_hist_state`: normalize to start of day
(midnight). -/
def dayBlockForHistState (h : HistoricalState) : PyDateTime :=
  { h.dt with hour := 0, minute := 0, second := 0, microsecond := 0 }

/-- Python `itertools.groupby(xs, key=key)`: runs of *adjacent* elements
whose keys are equal, in input order — not a full group-by. -/
def groupByAdj {α κ : Type} [DecidableEq κ] (key : α → κ) : List α → List (κ × List α)
  | [] => []
  | a :: as =>
    match groupByAdj key as with
    | [] => [(key a, [a])]
    | (k, g) :: rest =>
      if key a = k then (key a, a :: g) :: rest
      else (key a, [a]) :: (k, g) :: rest

/-- The loop `for dt, collection_it in itertools.groupby(...)`: for each run,
`daily_total = sum(x.state for x in collection)`, the accumulator grows by
`daily_total`, and one `StatisticData(start=dt, state=daily_total,
sum=accumulated)` is appended. -/
def statRuns (accumulated : ℚ) : List (PyDateTime × List HistoricalState) → List StatisticData
  | [] => []
  | (dt, collection) :: rest =>
    let dailyTotal := (collection.map HistoricalState.state).sum
    { start := dt, state := dailyTotal, sum := accumulated + dailyTotal }
      :: statRuns (accumulated + dailyTotal) rest

/-- The method `async_calculate_statistic_data(hist_states, latest=latest)`.
The source reads `accumulated = latest["sum"] if latest else 0`, so the
previously stored row `latest` is embedded as the optional prior sum. -/
def calculateStatisticData (histStates : List HistoricalState)
    (latest : Option ℚ) : List StatisticData :=
  statRuns (latest.getD 0) (groupByAdj dayBlockForHistState histStates)

/-! ## API client (`api.py`, class `TridensApiClient`)

JSON bodies arrive already parsed, as `response.json()` returns them. -/

/-- A parsed JSON value. -/
inductive Json where
  | null
  | bool (b : Bool)
  | str (s : String)
  | num (q : ℚ)
  | arr (items : List Json)
  | obj (fields : List (String × Json))
deriving Repr

/-- The Python exception classes the client data handling can raise. -/
inductive PyErr where
  | keyError
  | indexError
  | typeError
  | valueError
  | decodeError
deriving DecidableEq, Repr

/-- Method `d.get(k)` of a dict: the value, or `None` when the key is
absent. (On a non-dict Python would raise `AttributeError`; the bodies on
this path are dicts.) -/
def Json.getOpt : Json → String → Option Json
  | .obj fs, k => (fs.find? (fun p => p.1 = k)).map Prod.snd
  | _, _ => none

/-- Subscript `d[k]` with a string key: `KeyError` when absent, `TypeError`
when `d` is not subscriptable by strings. -/
def Json.getItem : Json → String → Except PyErr Json
  | .obj fs, k =>
    match fs.find? (fun p => p.1 = k) with
    | some p => .ok p.2
    | none => .error .keyError
  | _, _ => .error .typeError

/-- Subscript `l[i]` with an integer index: `IndexError` when out of range,
`KeyError` on a dict, `TypeError` otherwise. -/
def Json.index : Json → Nat → Except PyErr Json
  | .arr items, i =>
    match items[i]? with
    | some v => .ok v
    | none => .error .indexError
  | .obj _, _ => .error .keyError
  | _, _ => .error .typeError

/-- The mutable session state of `TridensApiClient` (see `__init__`). -/
structure Session where
  access_token : Option Json := none
  customer_code : Option Json := none
  customer_id : Option Json := none
  group_id : Option Json := none
  balance_group_id : Option Json := none
deriving Repr

/-- What a client coroutine can raise: the two typed errors of the module,
or an uncaught Python-level exception. -/
inductive ApiError where
  | invalidAuth
  | cannotConnect
  | py (e : PyErr)
deriving DecidableEq, Repr

/-- One HTTP exchange as the client observes it: a final response (status
and parsed JSON body), or an `aiohttp.ClientError`-level failure
(connection refused, timeout, DNS, TLS, malformed body). -/
inductive HttpResult where
  | resp (status : Nat) (body : Json)
  | netErr
deriving Repr

/-- A query-string parameter value (the `params` dict entries hold strings
or integers). -/
inductive ParamVal where
  | s (v : String)
  | n (v : Int)
deriving DecidableEq, Repr

/-- Stub transport: the response to the n-th authentication exchange, the
response to the n-th request issued through `_api_request`, and the claim
payload `jwt.decode` extracts from a token without verifying its signature
(`none` when `jwt.decode` raises `DecodeError` on that token). -/
structure Env where
  authResp : Nat → HttpResult
  reqResp : Nat → HttpResult
  decodeClaims : Json → Option Json

/-- The session together with the stub transport's interaction counters and
the usage-event queries issued. -/
structure Trace where
  session : Session
  authCalls : Nat := 0
  reqAttempts : Nat := 0
  custReqs : Nat := 0
  subReqs : Nat := 0
  usageQueries : List (List (String × ParamVal)) := []

/-- Classification of one authentication exchange, after `async_get_token`:
network failure → `CannotConnect`; 401/403 → `InvalidAuth`;
`raise_for_status()` raises `aiohttp.ClientResponseError` (caught by the
handler and wrapped into `CannotConnect`) exactly when the status is ≥ 400;
otherwise the body's `access_token` field is read first, then its `token`
field, and `CannotConnect` is raised when both are absent. -/
def authOutcome (r : HttpResult) : Except ApiError Json :=
  match r with
  | .netErr => .error .cannotConnect
  | .resp status body =>
    if status = 401 ∨ status = 403 then .error .invalidAuth
    else if 400 ≤ status then .error .cannotConnect
    else
      match body.getOpt "access_token" with
      | some tok => .ok tok
      | none =>
        match body.getOpt "token" with
        | some tok => .ok tok
        | none => .error .cannotConnect

/-- Method `_set_customer_code_from_token`: decode the token payload without
verifying the signature and store its `customer_code` claim (`None` when the
claim is absent). A malformed token raises `jwt.exceptions.DecodeError`,
which nothing catches. -/
def setCustomerCodeFromToken (env : Env) (tok : Json) (t : Trace) :
    Except ApiError Trace :=
  match env.decodeClaims tok with
  | none => .error (.py .decodeError)
  | some claims =>
    .ok { t with session :=
      { t.session with customer_code := claims.getOpt "customer_code" } }

/-- Method `async_get_token`: a single authentication exchange — no retry.
On success the token is stored, then the customer code is extracted from
it. The pair carries the result and the state as mutated up to the raise. -/
def getToken (env : Env) (t : Trace) : Except ApiError Json × Trace :=
  let r := env.authResp t.authCalls
  let t1 := { t with authCalls := t.authCalls + 1 }
  match authOutcome r with
  | .error e => (.error e, t1)
  | .ok tok =>
    let t2 := { t1 with session := { t1.session with access_token := some tok } }
    match setCustomerCodeFromToken env tok t2 with
    | .error e => (.error e, t2)
    | .ok t3 => (.ok tok, t3)

/-- The `try` block of `_api_request`: issue the request; on a 401/403
status re-authenticate once (`InvalidAuth`, `CannotConnect` and
`DecodeError` from the nested `async_get_token` are not
`aiohttp.ClientError`s, so they propagate unchanged) and retry the same
request exactly once, with no further catch of 401/403: the retry calls
only `raise_for_status()`, whose `aiohttp.ClientResponseError` (any status
≥ 400) the `except aiohttp.ClientError` handler wraps into `CannotConnect`
— as it wraps every network-level failure and every first-attempt status
≥ 400 outside 401/403. -/
def apiRequestAttempt (env : Env) (t : Trace) : Except ApiError Json × Trace :=
  let r := env.reqResp t.reqAttempts
  let ta := { t with reqAttempts := t.reqAttempts + 1 }
  match r with
  | .netErr => (.error .cannotConnect, ta)
  | .resp status body =>
    if status = 401 ∨ status = 403 then
      match getToken env ta with
      | (.error e, tb) => (.error e, tb)
      | (.ok _, tb) =>
        let r2 := env.reqResp tb.reqAttempts
        let tc := { tb with reqAttempts := tb.reqAttempts + 1 }
        match r2 with
        | .netErr => (.error .cannotConnect, tc)
        | .resp s2 b2 =>
          if 400 ≤ s2 then (.error .cannotConnect, tc)
          else (.ok b2, tc)
    else if 400 ≤ status then (.error .cannotConnect, ta)
    else (.ok body, ta)

/-- Method `_api_request`: authenticate first when no token is held (this
guard sits outside the `try`, so errors of that initial `async_get_token`
propagate unchanged), then run the request/retry block. -/
def apiRequest (env : Env) (t : Trace) : Except ApiError Json × Trace :=
  match t.session.access_token with
  | some _ => apiRequestAttempt env t
  | none =>
    match getToken env t with
    | (.error e, t') => (.error e, t')
    | (.ok _, t') => apiRequestAttempt env t'

/-- The extraction `groups = data.get("groups"); groups[0]["id"]` of
`_get_customer_data`: a missing `groups` key yields `None`, which the
subscript `[0]` then fails on with `TypeError`. -/
def extractGroupId (data : Json) : Except PyErr Json :=
  match data.getOpt "groups" with
  | none => .error .typeError
  | some groups =>
    match groups.index 0 with
    | .error e => .error e
    | .ok g0 => g0.getItem "id"

/-- Method `_get_customer_data`: authenticate first when no customer code is
held, issue the customer-profile GET, then extract the first group's id
inside a bare `except:` — every extraction failure is swallowed (logged
only) and `group_id` stays as it was. -/
def getCustomerData (env : Env) (t : Trace) : Except ApiError Unit × Trace :=
  let ensure : Except ApiError Unit × Trace :=
    match t.session.customer_code with
    | some _ => (.ok (), t)
    | none =>
      match getToken env t with
      | (.error e, t') => (.error e, t')
      | (.ok _, t') => (.ok (), t')
  match ensure with
  | (.error e, t') => (.error e, t')
  | (.ok _, t') =>
    let ta := { t' with custReqs := t'.custReqs + 1 }
    match apiRequest env ta with
    | (.error e, tb) => (.error e, tb)
    | (.ok data, tb) =>
      match extractGroupId data with
      | .ok gid =>
        (.ok (), { tb with session := { tb.session with group_id := some gid } })
      | .error _ => (.ok (), tb)

/-- The extraction `data["objects"][0]["subscriptions"][0]["balance_group"]["id"]`. -/
def extractBalanceGroupId (data : Json) : Except PyErr Json :=
  match data.getItem "objects" with
  | .error e => .error e
  | .ok objs =>
    match objs.index 0 with
    | .error e => .error e
    | .ok o0 =>
      match o0.getItem "subscriptions" with
      | .error e => .error e
      | .ok subs =>
        match subs.index 0 with
        | .error e => .error e
        | .ok s0 =>
          match s0.getItem "balance_group" with
          | .error e => .error e
          | .ok bg => bg.getItem "id"

/-- The extraction `data["objects"][0]["id"]`. -/
def extractCustomerId (data : Json) : Except PyErr Json :=
  match data.getItem "objects" with
  | .error e => .error e
  | .ok objs =>
    match objs.index 0 with
    | .error e => .error e
    | .ok o0 => o0.getItem "id"

/-- The two assignments of the `try` block of `_get_subscription_data`, with
the session as mutated up to a raise: the `balance_group_id` assignment
commits even when the later `customer_id` extraction fails. -/
def subscriptionTryBody (data : Json) (s : Session) : Except PyErr Unit × Session :=
  match extractBalanceGroupId data with
  | .error e => (.error e, s)
  | .ok bgid =>
    let s1 := { s with balance_group_id := some bgid }
    match extractCustomerId data with
    | .error e => (.error e, s1)
    | .ok cid => (.ok (), { s1 with customer_id := some cid })

/-- The `try: ... except ValueError:` around the extraction: only a
`ValueError` is caught (and swallowed, logged only); the `KeyError`,
`IndexError` or `TypeError` a missing structure actually raises propagates
to the caller. -/
def subscriptionHandled (data : Json) (s : Session) : Except PyErr Unit × Session :=
  match subscriptionTryBody data s with
  | (.error .valueError, s1) => (.ok (), s1)
  | r => r

/-- Method `_get_subscription_data`: resolve `group_id` first when it is
absent, issue the subscription GET filtered by `parent-group`, then run the
extraction guarded by `except ValueError`. -/
def getSubscriptionData (env : Env) (t : Trace) : Except ApiError Unit × Trace :=
  let ensure : Except ApiError Unit × Trace :=
    match t.session.group_id with
    | some _ => (.ok (), t)
    | none => getCustomerData env t
  match ensure with
  | (.error e, t') => (.error e, t')
  | (.ok _, t') =>
    let ta := { t' with subReqs := t'.subReqs + 1 }
    match apiRequest env ta with
    | (.error e, tb) => (.error e, tb)
    | (.ok data, tb) =>
      match subscriptionHandled data tb.session with
      | (.ok _, s1) => (.ok (), { tb with session := s1 })
      | (.error e, s1) => (.error (.py e), { tb with session := s1 })

/-- The digit run `cs` as a natural number; `none` when empty or not all
digits. -/
def digitsToNat : List Char → Option Nat
  | [] => none
  | cs =>
    if cs.all Char.isDigit then
      some (cs.foldl (fun n c => 10 * n + (c.toNat - 48)) 0)
    else none

/-- Python `int(s)` on a string: an optionally signed run of digits, else
`ValueError`. (Python also strips whitespace and accepts underscores; the
values on this path are plain digit strings.) -/
def pyIntOfString (s : String) : Except PyErr Int :=
  match s.data with
  | '-' :: rest =>
    match digitsToNat rest with
    | some n => .ok (-(n : Int))
    | none => .error .valueError
  | cs =>
    match digitsToNat cs with
    | some n => .ok (n : Int)
    | none => .error .valueError

/-- Python `int(x)`: parse a string, truncate a float toward zero, keep a
bool as 0 or 1; anything else raises `TypeError`. -/
def pyInt : Json → Except PyErr Int
  | .str s => pyIntOfString s
  | .num q => .ok (Int.tdiv q.num q.den)
  | .bool b => .ok (if b then 1 else 0)
  | _ => .error .typeError

/-- Splitting a character list at every dot, as `s.split(".")` does for the
single-character separator. -/
def splitOnDot : List Char → List (List Char)
  | [] => [[]]
  | '.' :: rest => [] :: splitOnDot rest
  | c :: rest =>
    match splitOnDot rest with
    | [] => [[c]]
    | g :: gs => (c :: g) :: gs

/-- Python `float(u)` on an unsigned string: `digits` or `digits.digits`,
giving whole + frac / 10 ^ (number of fractional digits) — exactly the
decimal literals the platform serves; else `ValueError`. -/
def pyFloatUnsigned (cs : List Char) : Option ℚ :=
  match splitOnDot cs with
  | [a] => (digitsToNat a).map (fun n => (n : ℚ))
  | [a, b] =>
    match digitsToNat a, digitsToNat b with
    | some n, some f => some ((n : ℚ) + (f : ℚ) / ((10 : ℚ) ^ b.length))
    | _, _ => none
  | _ => none

/-- Python `float(s)` on a string: an optional sign followed by an unsigned
decimal literal; else `ValueError`. -/
def pyFloatOfString (s : String) : Except PyErr ℚ :=
  match s.data with
  | '-' :: rest =>
    match pyFloatUnsigned rest with
    | some q => .ok (-q)
    | none => .error .valueError
  | cs =>
    match pyFloatUnsigned cs with
    | some q => .ok q
    | none => .error .valueError

/-- Python `float(x)`: parse a string, keep a number, keep a bool as 0 or 1;
anything else raises `TypeError`. -/
def pyFloat : Json → Except PyErr ℚ
  | .str s => pyFloatOfString s
  | .num q => .ok q
  | .bool b => .ok (if b then 1 else 0)
  | _ => .error .typeError

/-- The value record `ConsumptionRecord`. `datetime.fromtimestamp` is a
bijection between epoch seconds and naive local datetimes, so
`time_of_read` is embedded as the epoch-second value it is built from. -/
structure ConsumptionRecord where
  time_of_read : ℚ
  consumption : ℚ
  cost : ℚ
deriving DecidableEq, Repr

/-- One usage event into a `ConsumptionRecord`:
`time_of_read = int(item["fields"]["time_of_read"]) / 1000` (true
division), `consumption = float(item["quantity"])`,
`cost = float(item["amount_with_discount"])`. -/
def parseUsageEvent (item : Json) : Except PyErr ConsumptionRecord :=
  match item.getItem "fields" with
  | .error e => .error e
  | .ok fields =>
    match fields.getItem "time_of_read" with
    | .error e => .error e
    | .ok tor =>
      match pyInt tor with
      | .error e => .error e
      | .ok ms =>
        match item.getItem "quantity" with
        | .error e => .error e
        | .ok qv =>
          match pyFloat qv with
          | .error e => .error e
          | .ok consumption =>
            match item.getItem "amount_with_discount" with
            | .error e => .error e
            | .ok av =>
              match pyFloat av with
              | .error e => .error e
              | .ok cost =>
                .ok { time_of_read := (ms : ℚ) / 1000,
                      consumption := consumption, cost := cost }

/-- The record loop of `fetch_consumption` over `data.get("objects", [])`:
a missing `objects` key iterates the empty default, a list is mapped in
order, anything else fails to iterate as the loop body expects. -/
def parseUsageObjects (data : Json) : Except PyErr (List ConsumptionRecord) :=
  match data.getOpt "objects" with
  | none => .ok []
  | some (.arr items) => items.mapM parseUsageEvent
  | some _ => .error .typeError

/-- The bound `int(dt.timestamp()) * 1000`: the datetime's epoch seconds
truncated toward zero, in milliseconds. -/
def msEpoch (ts : ℚ) : Int :=
  Int.tdiv ts.num ts.den * 1000

/-- The `params` dict of `fetch_consumption`: the fixed service type, page
1, page size 100, descending order; `time-from` and `time-to` are added
exactly when `start` and `end` are given (a `datetime` is always truthy),
in millisecond epoch. `start` and `end` are embedded as their epoch-second
timestamps. -/
def buildUsageParams (start endT : Option ℚ) : List (String × ParamVal) :=
  [("service_type", .s "HEAT_METER_READ_SERVICE"), ("page", .n 1),
   ("count", .n 100), ("order-dir", .s "desc")]
    ++ (match start with
        | some ts => [("time-from", .n (msEpoch ts))]
        | none => [])
    ++ (match endT with
        | some ts => [("time-to", .n (msEpoch ts))]
        | none => [])

/-- Method `fetch_consumption(start, end)`: resolve the subscription data
first when `customer_id` or `balance_group_id` is unset, issue the
usage-events GET with `buildUsageParams` (recorded in the trace), and map
the response objects into records. -/
def fetchConsumption (env : Env) (t : Trace) (start endT : Option ℚ) :
    Except ApiError (List ConsumptionRecord) × Trace :=
  let ensure : Except ApiError Unit × Trace :=
    match t.session.customer_id, t.session.balance_group_id with
    | some _, some _ => (.ok (), t)
    | _, _ => getSubscriptionData env t
  match ensure with
  | (.error e, t') => (.error e, t')
  | (.ok _, t') =>
    let ta := { t' with usageQueries := t'.usageQueries ++ [buildUsageParams start endT] }
    match apiRequest env ta with
    | (.error e, tb) => (.error e, tb)
    | (.ok data, tb) =>
      match parseUsageObjects data with
      | .ok records => (.ok records, tb)
      | .error e => (.error (.py e), tb)

/-- Assertion that `t2` preserves the resolver-visible state of `t`: the
resolved identifiers, the customer/subscription lookup counters and the
recorded usage queries. -/
def Pres (t t2 : Trace) : Prop :=
  t2.session.customer_id = t.session.customer_id
  ∧ t2.session.balance_group_id = t.session.balance_group_id
  ∧ t2.session.group_id = t.session.group_id
  ∧ t2.custReqs = t.custReqs
  ∧ t2.subReqs = t.subReqs
  ∧ t2.usageQueries = t.usageQueries

/-! ### Concrete stub transports and traces for the closed instances -/

/-- A successful authentication body. -/
def okAuthBody : Json := .obj [("access_token", .str "tok")]

/-- A fresh client: no token, nothing resolved, no calls made. -/
def freshTrace : Trace := { session := {} }

/-- Transport for the double-401 scenario: authentication always succeeds,
every request through `_api_request` gets a 401. -/
def env401 : Env :=
  { authResp := fun _ => .resp 200 okAuthBody
    reqResp := fun _ => .resp 401 .null
    decodeClaims := fun _ => some (.obj []) }

/-- Transport whose authentication endpoint answers with status 300 — not a
2xx status, yet below the 400 threshold of `raise_for_status()` — and a
body carrying a `token` field. -/
def env300 : Env :=
  { authResp := fun _ => .resp 300 (.obj [("token", .str "abc")])
    reqResp := fun _ => .netErr
    decodeClaims := fun _ => some (.obj []) }

/-- A session with every identifier already resolved. -/
def resolvedSession : Session :=
  { access_token := some (.str "tok"), customer_code := some (.str "cc")
    customer_id := some (.str "cid"), group_id := some (.str "gid")
    balance_group_id := some (.str "bg") }

/-- A trace holding `resolvedSession`. -/
def resolvedTrace : Trace := { session := resolvedSession }

/-- Transport answering every request with a 200 whose body is
`{"objects": []}`. -/
def envEmptyObjects : Env :=
  { authResp := fun _ => .resp 200 okAuthBody
    reqResp := fun _ => .resp 200 (.obj [("objects", .arr [])])
    decodeClaims := fun _ => some (.obj []) }

/-- A trace holding a token and a resolved group, but no subscription data
yet. -/
def subTrace : Trace :=
  { session := { access_token := some (.str "tok"), customer_code := some (.str "cc")
                 group_id := some (.str "gid") } }

/-- Transport answering every request with a 200 whose body is the empty
JSON object. -/
def envEmptyBody : Env :=
  { authResp := fun _ => .resp 200 okAuthBody
    reqResp := fun _ => .resp 200 (.obj [])
    decodeClaims := fun _ => some (.obj []) }

/-! ## Lemmas about the aggregation -/

theorem statRuns_get_zero (seed : ℚ) (runs : List (PyDateTime × List HistoricalState))
    (a : StatisticData) (h : (statRuns seed runs)[0]? = some a) :
    a.sum = seed + a.state := by
  cases runs with
  | nil => simp [statRuns] at h
  | cons r rest =>
    obtain ⟨d, g⟩ := r
    simp [statRuns] at h
    subst h
    rfl

theorem statRuns_chain (runs : List (PyDateTime × List HistoricalState)) :
    ∀ (seed : ℚ) (i : Nat) (a b : StatisticData),
      (statRuns seed runs)[i]? = some a →
      (statRuns seed runs)[i + 1]? = some b →
      b.sum = a.sum + b.state := by
  induction runs with
  | nil => intro seed i a b ha _; simp [statRuns] at ha
  | cons r rest ih =>
    intro seed i a b ha hb
    obtain ⟨d, g⟩ := r
    match i with
    | 0 =>
      simp [statRuns] at ha hb
      have h0 := statRuns_get_zero _ _ _ hb
      subst ha
      rw [h0]
    | Nat.succ j =>
      simp only [statRuns, List.getElem?_cons_succ] at ha hb
      exact ih _ j a b ha hb

theorem groupByAdj_flatten {α κ : Type} [DecidableEq κ] (key : α → κ) (l : List α) :
    ((groupByAdj key l).map Prod.snd).flatten = l := by
  induction l with
  | nil => rfl
  | cons a as ih =>
    simp only [groupByAdj]
    cases hg : groupByAdj key as with
    | nil =>
      rw [hg] at ih
      simp at ih
      simp [ih]
    | cons p rest =>
      obtain ⟨k, g⟩ := p
      rw [hg] at ih
      by_cases hk : key a = k
      · simp only [hk, if_pos rfl]
        simpa using congrArg (List.cons a) ih
      · simp only [if_neg hk]
        simpa using congrArg (List.cons a) ih

theorem statRuns_states (seed : ℚ) (runs : List (PyDateTime × List HistoricalState)) :
    ((statRuns seed runs).map StatisticData.state).sum
      = ((runs.map Prod.snd).flatten.map HistoricalState.state).sum := by
  induction runs generalizing seed with
  | nil => rfl
  | cons r rest ih =>
    obtain ⟨d, g⟩ := r
    simp [statRuns, ih]

theorem statRuns_last (runs : List (PyDateTime × List HistoricalState)) :
    ∀ (seed : ℚ) (x : StatisticData), (statRuns seed runs).getLast? = some x →
      x.sum = seed + ((statRuns seed runs).map StatisticData.state).sum := by
  induction runs with
  | nil => intro seed x hx; simp [statRuns] at hx
  | cons r rest ih =>
    intro seed x hx
    obtain ⟨d, g⟩ := r
    rw [show statRuns seed ((d, g) :: rest)
        = { start := d, state := (g.map HistoricalState.state).sum,
            sum := seed + (g.map HistoricalState.state).sum }
          :: statRuns (seed + (g.map HistoricalState.state).sum) rest from rfl] at hx ⊢
    rcases hrest : statRuns (seed + (g.map HistoricalState.state).sum) rest with _ | ⟨y, ys⟩
    · rw [hrest] at hx
      simp at hx
      subst hx
      simp [hrest]
    · rw [hrest, List.getLast?_cons_cons, ← hrest] at hx
      have hsum := ih _ x hx
      rw [hrest] at hsum
      simp only [List.map_cons, List.sum_cons] at hsum ⊢
      rw [hsum]
      ring

theorem calcStates_sum (hs : List HistoricalState) (latest : Option ℚ) :
    ((calculateStatisticData hs latest).map StatisticData.state).sum
      = (hs.map HistoricalState.state).sum := by
  rw [calculateStatisticData, statRuns_states, groupByAdj_flatten]

/-! ## Claims about the aggregation -/

/-- C2. The aggregation partitions its input into adjacency-based runs of
consecutive readings sharing the same calendar day (not a full group-by):
the input `[day1=5, day2=3, day1=2]`, with no prior total (seed 0), yields
exactly 3 entries with period totals `(5, 3, 2)` and cumulative sums
`(5, 8, 10)` — the two day-1 readings form two separate runs. The two day-1
readings carry different times of day, so the run key really is the
truncated calendar day. -/
theorem claim_C2_adjacency_runs :
    calculateStatisticData
        [⟨⟨2024, 1, 1, 1, 0, 0, 0⟩, 5⟩, ⟨⟨2024, 1, 2, 1, 0, 0, 0⟩, 3⟩,
         ⟨⟨2024, 1, 1, 2, 30, 0, 0⟩, 2⟩] none =
      [⟨⟨2024, 1, 1, 0, 0, 0, 0⟩, 5, 5⟩, ⟨⟨2024, 1, 2, 0, 0, 0, 0⟩, 3, 8⟩,
       ⟨⟨2024, 1, 1, 0, 0, 0, 0⟩, 2, 10⟩] := by
  norm_num [calculateStatisticData, statRuns, groupByAdj, dayBlockForHistState]

/-- C4. For every input sequence and every seed, the cumulative sum of the
i-th output entry equals the cumulative sum of the previous entry (or the
seed — which defaults to 0 when no prior total is supplied — for the first
entry) plus the i-th entry's period total, accumulated in input order. -/
theorem claim_C4_cumulative_invariant (hs : List HistoricalState) (latest : Option ℚ) :
    (∀ a, (calculateStatisticData hs latest)[0]? = some a →
        a.sum = latest.getD 0 + a.state)
    ∧ ∀ i a b, (calculateStatisticData hs latest)[i]? = some a →
        (calculateStatisticData hs latest)[i + 1]? = some b →
        b.sum = a.sum + b.state := by
  constructor
  · intro a ha
    exact statRuns_get_zero _ _ _ ha
  · intro i a b ha hb
    exact statRuns_chain _ _ i a b ha hb

/-- C9. For every input sequence and every seed S, the sum of the
`period_total` values over all output entries equals the sum of all
per-reading values of the input, and the cumulative sum of the last output
entry equals S plus that total — for every ordering and grouping of the
readings into runs. -/
theorem claim_C9_total_conservation (hs : List HistoricalState) (latest : Option ℚ) :
    ((calculateStatisticData hs latest).map StatisticData.state).sum
        = (hs.map HistoricalState.state).sum
    ∧ ∀ x, (calculateStatisticData hs latest).getLast? = some x →
        x.sum = latest.getD 0 + (hs.map HistoricalState.state).sum := by
  refine ⟨calcStates_sum hs latest, fun x hx => ?_⟩
  have h := statRuns_last _ _ x hx
  rw [← calcStates_sum hs latest]
  exact h

/-! ## Lemmas about the API client -/

theorem getToken_frame (env : Env) (t : Trace) :
    (getToken env t).2.session.customer_id = t.session.customer_id
    ∧ (getToken env t).2.session.balance_group_id = t.session.balance_group_id
    ∧ (getToken env t).2.session.group_id = t.session.group_id
    ∧ (getToken env t).2.custReqs = t.custReqs
    ∧ (getToken env t).2.subReqs = t.subReqs
    ∧ (getToken env t).2.reqAttempts = t.reqAttempts
    ∧ (getToken env t).2.usageQueries = t.usageQueries
    ∧ (getToken env t).2.authCalls = t.authCalls + 1 := by
  rcases h : authOutcome (env.authResp t.authCalls) with e | tok
  · simp [getToken, h]
  · rcases hd : env.decodeClaims tok with _ | claims
    · simp [getToken, h, setCustomerCodeFromToken, hd]
    · simp [getToken, h, setCustomerCodeFromToken, hd]

theorem pres_refl (t : Trace) : Pres t t :=
  ⟨rfl, rfl, rfl, rfl, rfl, rfl⟩

theorem pres_trans {t1 t2 t3 : Trace} (h1 : Pres t1 t2) (h2 : Pres t2 t3) :
    Pres t1 t3 := by
  obtain ⟨a1, b1, c1, d1, e1, f1⟩ := h1
  obtain ⟨a2, b2, c2, d2, e2, f2⟩ := h2
  exact ⟨a2.trans a1, b2.trans b1, c2.trans c1, d2.trans d1, e2.trans e1, f2.trans f1⟩

theorem getToken_pres (env : Env) (t : Trace) : Pres t (getToken env t).2 := by
  obtain ⟨h1, h2, h3, h4, h5, _, h7, _⟩ := getToken_frame env t
  exact ⟨h1, h2, h3, h4, h5, h7⟩

theorem apiRequestAttempt_pres (env : Env) (t : Trace) :
    Pres t (apiRequestAttempt env t).2 := by
  unfold apiRequestAttempt
  rcases hr : env.reqResp t.reqAttempts with ⟨status, body⟩ | _
  · simp only [hr]
    by_cases h4 : status = 401 ∨ status = 403
    · simp only [if_pos h4]
      rcases hgt : getToken env { t with reqAttempts := t.reqAttempts + 1 } with ⟨r, tb⟩
      have hp : Pres t tb := by
        have hh := getToken_pres env { t with reqAttempts := t.reqAttempts + 1 }
        rw [hgt] at hh
        exact hh
      rcases r with e | tokv
      · simp only [hgt]
        exact hp
      · simp only [hgt]
        rcases hr2 : env.reqResp tb.reqAttempts with ⟨s2, b2⟩ | _
        · simp only [hr2]
          by_cases h400 : 400 ≤ s2
          · simp only [if_pos h400]
            exact hp
          · simp only [if_neg h400]
            exact hp
        · simp only [hr2]
          exact hp
    · by_cases h400 : 400 ≤ status
      · simp only [if_neg h4, if_pos h400]
        exact pres_refl t
      · simp only [if_neg h4, if_neg h400]
        exact pres_refl t
  · simp only [hr]
    exact pres_refl t

theorem apiRequest_pres (env : Env) (t : Trace) : Pres t (apiRequest env t).2 := by
  unfold apiRequest
  rcases t.session.access_token with _ | tok
  · rcases hgt : getToken env t with ⟨r, t1⟩
    have hp : Pres t t1 := by
      have hh := getToken_pres env t
      rw [hgt] at hh
      exact hh
    rcases r with e | tokv
    · simpa using hp
    · exact pres_trans hp (apiRequestAttempt_pres env t1)
  · exact apiRequestAttempt_pres env t

theorem getToken_fst (env : Env) (t : Trace) :
    (getToken env t).1
      = match authOutcome (env.authResp t.authCalls) with
        | .error e => .error e
        | .ok tok =>
          match env.decodeClaims tok with
          | none => .error (.py .decodeError)
          | some _ => .ok tok := by
  rcases h : authOutcome (env.authResp t.authCalls) with e | tok
  · simp [getToken, h]
  · rcases hd : env.decodeClaims tok with _ | claims
    · simp [getToken, h, setCustomerCodeFromToken, hd]
    · simp [getToken, h, setCustomerCodeFromToken, hd]

/-! ## Claims about the API client -/

/-- C1. For a fresh session (no token held yet, the spec's initial + refresh
accounting) in which both authentication exchanges succeed: when the first
HTTP attempt of `_api_request` returns status 401 or 403, the client
re-authenticates and retries the same request exactly once — exactly 2
request attempts and 2 authenticate calls in total — and every failure of
the retry (another 401/403, any other status ≥ 400, or a network failure)
surfaces as `CannotConnect`, never as `InvalidAuth`. -/
theorem claim_C1_single_retry (env : Env) (t : Trace) (tok0 tok1 c0 c1 : Json)
    (s1 : Nat) (b1 : Json)
    (htok : t.session.access_token = none)
    (ha0 : t.authCalls = 0) (hr0 : t.reqAttempts = 0)
    (hauth0 : authOutcome (env.authResp 0) = .ok tok0)
    (hdec0 : env.decodeClaims tok0 = some c0)
    (hauth1 : authOutcome (env.authResp 1) = .ok tok1)
    (hdec1 : env.decodeClaims tok1 = some c1)
    (hfirst : env.reqResp 0 = .resp s1 b1)
    (h401 : s1 = 401 ∨ s1 = 403) :
    (apiRequest env t).2.reqAttempts = 2
    ∧ (apiRequest env t).2.authCalls = 2
    ∧ ∀ e, (apiRequest env t).1 = .error e → e = .cannotConnect := by
  unfold apiRequest
  simp only [htok, getToken, ha0, hauth0, setCustomerCodeFromToken, hdec0]
  unfold apiRequestAttempt
  simp only [hr0, hfirst, if_pos h401, getToken, setCustomerCodeFromToken, ha0,
    Nat.zero_add, hauth1, hdec1]
  rcases h2 : env.reqResp 1 with ⟨s2, b2⟩ | _ <;> simp only [h2]
  · by_cases h4 : 400 ≤ s2
    · simp [if_pos h4]
    · simp [if_neg h4]
  · simp

/-- C1 witness: on the double-401 transport `env401` and a fresh client,
`_api_request` makes exactly 2 request attempts and 2 authenticate calls,
and any error it raises is `CannotConnect`. -/
theorem claim_C1_witness :
    (apiRequest env401 freshTrace).2.reqAttempts = 2
    ∧ (apiRequest env401 freshTrace).2.authCalls = 2
    ∧ ∀ e, (apiRequest env401 freshTrace).1 = .error e → e = .cannotConnect :=
  claim_C1_single_retry env401 freshTrace (.str "tok") (.str "tok")
    (.obj []) (.obj []) 401 .null rfl rfl rfl rfl rfl rfl rfl rfl (Or.inl rfl)

/-- C3 counterexample: the claim says every non-2xx authentication response
other than 401/403 raises `CannotConnect`, but `raise_for_status()` only
raises for statuses ≥ 400 — on a status-300 response whose body carries a
`token` field, `async_get_token` returns the token instead of raising. -/
theorem claim_C3_counterexample_300 :
    env300.authResp 0 = .resp 300 (Json.obj [("token", Json.str "abc")])
    ∧ (getToken env300 freshTrace).1 = .ok (Json.str "abc") :=
  ⟨rfl, rfl⟩

/-- C3 as amended: `async_get_token` makes exactly one authentication
exchange (no retry); it raises `InvalidAuth` exactly when the endpoint
responds 401 or 403; a network-level failure, any other response with
status ≥ 400 (rather than any non-2xx response), and a passing (status
< 400) response lacking both the `access_token` and `token` fields raise
`CannotConnect` instead. -/
theorem claim_C3_amended_classification (env : Env) (t : Trace) :
    (getToken env t).2.authCalls = t.authCalls + 1
    ∧ ((getToken env t).1 = .error .invalidAuth ↔
        ∃ st b, env.authResp t.authCalls = .resp st b ∧ (st = 401 ∨ st = 403))
    ∧ (env.authResp t.authCalls = .netErr →
        (getToken env t).1 = .error .cannotConnect)
    ∧ (∀ st b, env.authResp t.authCalls = .resp st b → 400 ≤ st →
        ¬(st = 401 ∨ st = 403) → (getToken env t).1 = .error .cannotConnect)
    ∧ (∀ st b, env.authResp t.authCalls = .resp st b → st < 400 →
        b.getOpt "access_token" = none → b.getOpt "token" = none →
        (getToken env t).1 = .error .cannotConnect) := by
  refine ⟨(getToken_frame env t).2.2.2.2.2.2.2, ?_, ?_, ?_, ?_⟩
  · constructor
    · intro h
      rw [getToken_fst] at h
      rcases hr : env.authResp t.authCalls with ⟨st, b⟩ | _
      · refine ⟨st, b, rfl, ?_⟩
        by_contra h4
        rw [hr] at h
        by_cases h400 : 400 ≤ st
        · simp [authOutcome, if_neg h4, if_pos h400] at h
        · simp only [authOutcome, if_neg h4, if_neg h400] at h
          rcases hat : b.getOpt "access_token" with _ | tok
          · rcases htk : b.getOpt "token" with _ | tok
            · simp [hat, htk] at h
            · simp only [hat, htk] at h
              rcases hd : env.decodeClaims tok with _ | c <;> simp [hd] at h
          · simp only [hat] at h
            rcases hd : env.decodeClaims tok with _ | c <;> simp [hd] at h
      · rw [hr] at h
        simp [authOutcome] at h
    · rintro ⟨st, b, hr, h4⟩
      rw [getToken_fst, hr]
      simp [authOutcome, if_pos h4]
  · intro hr
    rw [getToken_fst, hr]
    simp [authOutcome]
  · intro st b hr h400 h4
    rw [getToken_fst, hr]
    simp [authOutcome, if_neg h4, if_pos h400]
  · intro st b hr hst hat htk
    have h4 : ¬(st = 401 ∨ st = 403) := by omega
    have h400 : ¬(400 ≤ st) := by omega
    rw [getToken_fst, hr]
    simp [authOutcome, if_neg h4, if_neg h400, hat, htk]

/-- C5. Step 1 (`_get_customer_data`) really does swallow its extraction
failure under the bare `except:` — an empty response body leaves `group_id`
untouched and raises nothing — but step 2 (`_get_subscription_data`) does
not: its handler catches only `ValueError`, while the extraction on a
response whose `objects` list is empty raises `IndexError`, which
propagates out of the method instead of being swallowed. -/
theorem claim_C5_extraction_failures :
    (getCustomerData envEmptyBody subTrace).1 = .ok ()
    ∧ (getCustomerData envEmptyBody subTrace).2.session.group_id
        = subTrace.session.group_id
    ∧ subscriptionTryBody (Json.obj [("objects", Json.arr [])]) {}
        = (.error .indexError, {})
    ∧ subscriptionHandled (Json.obj [("objects", Json.arr [])]) {}
        = (.error .indexError, {})
    ∧ (getSubscriptionData envEmptyObjects subTrace).1
        = .error (.py .indexError) :=
  ⟨rfl, rfl, rfl, rfl, rfl⟩

/-- C6. When a call to `fetch_consumption` has left both `customer_id` and
`balance_group_id` resolved, a second call on the same session issues no
customer lookup and no subscription lookup, and both identifiers are reused
unchanged — nothing ever clears them. -/
theorem claim_C6_resolver_cache (env env2 : Env) (t t1 : Trace)
    (s e s2 e2 : Option ℚ) (cid bgid : Json)
    (_ht1 : (fetchConsumption env t s e).2 = t1)
    (hc : t1.session.customer_id = some cid)
    (hb : t1.session.balance_group_id = some bgid) :
    (fetchConsumption env2 t1 s2 e2).2.custReqs = t1.custReqs
    ∧ (fetchConsumption env2 t1 s2 e2).2.subReqs = t1.subReqs
    ∧ (fetchConsumption env2 t1 s2 e2).2.session.customer_id = some cid
    ∧ (fetchConsumption env2 t1 s2 e2).2.session.balance_group_id = some bgid := by
  unfold fetchConsumption
  simp only [hc, hb]
  rcases ha : apiRequest env2
      { t1 with usageQueries := t1.usageQueries ++ [buildUsageParams s2 e2] } with ⟨r, tb⟩
  have hp : Pres { t1 with usageQueries := t1.usageQueries ++ [buildUsageParams s2 e2] } tb := by
    have hh := apiRequest_pres env2
      { t1 with usageQueries := t1.usageQueries ++ [buildUsageParams s2 e2] }
    rw [ha] at hh
    exact hh
  obtain ⟨p1, p2, _, p4, p5, _⟩ := hp
  rcases r with e3 | data
  · simp only [ha]
    exact ⟨p4, p5, p1.trans hc, p2.trans hb⟩
  · simp only [ha]
    rcases hpo : parseUsageObjects data with recs | e3
    · simp only [hpo]
      exact ⟨p4, p5, p1.trans hc, p2.trans hb⟩
    · simp only [hpo]
      exact ⟨p4, p5, p1.trans hc, p2.trans hb⟩

/-- C6 witness: two consecutive `fetch_consumption` calls on the resolved
session against `envEmptyObjects` — the second call adds no customer or
subscription lookup and keeps both identifiers. -/
theorem claim_C6_witness :
    (fetchConsumption envEmptyObjects
        (fetchConsumption envEmptyObjects resolvedTrace none none).2 none none).2.custReqs
      = (fetchConsumption envEmptyObjects resolvedTrace none none).2.custReqs
    ∧ (fetchConsumption envEmptyObjects
        (fetchConsumption envEmptyObjects resolvedTrace none none).2 none none).2.subReqs
      = (fetchConsumption envEmptyObjects resolvedTrace none none).2.subReqs
    ∧ (fetchConsumption envEmptyObjects
        (fetchConsumption envEmptyObjects resolvedTrace none none).2 none
          none).2.session.customer_id
      = some (.str "cid")
    ∧ (fetchConsumption envEmptyObjects
        (fetchConsumption envEmptyObjects resolvedTrace none none).2 none
          none).2.session.balance_group_id
      = some (.str "bg") :=
  claim_C6_resolver_cache envEmptyObjects envEmptyObjects resolvedTrace
    (fetchConsumption envEmptyObjects resolvedTrace none none).2 none none none none
    (.str "cid") (.str "bg") rfl rfl rfl

/-- C7. Parsing the usage event
`{"fields": {"time_of_read": "1700000000000"}, "quantity": "12.5",
"amount_with_discount": "3.25"}` yields `consumption = 12.5`,
`cost = 3.25`, and a `time_of_read` equal to the millisecond epoch value
1700000000000 divided by 1000. -/
theorem claim_C7_record_round_trip :
    parseUsageEvent (Json.obj
        [("fields", Json.obj [("time_of_read", Json.str "1700000000000")]),
         ("quantity", Json.str "12.5"),
         ("amount_with_discount", Json.str "3.25")])
      = .ok { time_of_read := (1700000000000 : ℚ) / 1000,
              consumption := 12.5, cost := 3.25 } := by
  have h : parseUsageEvent (Json.obj
        [("fields", Json.obj [("time_of_read", Json.str "1700000000000")]),
         ("quantity", Json.str "12.5"),
         ("amount_with_discount", Json.str "3.25")])
      = .ok ⟨((1700000000000 : ℤ) : ℚ) / 1000,
             ((12 : ℕ) : ℚ) + ((5 : ℕ) : ℚ) / (10 : ℚ) ^ (1 : ℕ),
             ((3 : ℕ) : ℚ) + ((25 : ℕ) : ℚ) / (10 : ℚ) ^ (2 : ℕ)⟩ := rfl
  rw [h]
  norm_num

/-- C8. Every `fetch_consumption` call on a resolved session records exactly
one usage-events query, `buildUsageParams start end`, and that query holds
exactly the fixed service type, page 1, count 100 and descending order,
plus a `time-from` bound exactly when `start` is given and a `time-to`
bound exactly when `end` is given, each converted to a millisecond epoch
value. -/
theorem claim_C8_usage_query (env : Env) (t : Trace) (start endT : Option ℚ)
    (cid bgid : Json)
    (hc : t.session.customer_id = some cid)
    (hb : t.session.balance_group_id = some bgid) :
    (fetchConsumption env t start endT).2.usageQueries
        = t.usageQueries ++ [buildUsageParams start endT]
    ∧ (buildUsageParams start endT).map Prod.fst
        = ["service_type", "page", "count", "order-dir"]
          ++ (if start.isSome then ["time-from"] else [])
          ++ (if endT.isSome then ["time-to"] else [])
    ∧ ("service_type", ParamVal.s "HEAT_METER_READ_SERVICE") ∈ buildUsageParams start endT
    ∧ ("page", ParamVal.n 1) ∈ buildUsageParams start endT
    ∧ ("count", ParamVal.n 100) ∈ buildUsageParams start endT
    ∧ ("order-dir", ParamVal.s "desc") ∈ buildUsageParams start endT
    ∧ (∀ v, ("time-from", v) ∈ buildUsageParams start endT ↔
        ∃ q, start = some q ∧ v = ParamVal.n (msEpoch q))
    ∧ (∀ v, ("time-to", v) ∈ buildUsageParams start endT ↔
        ∃ q, endT = some q ∧ v = ParamVal.n (msEpoch q)) := by
  refine ⟨?_, ?_, ?_, ?_, ?_, ?_, ?_, ?_⟩
  · unfold fetchConsumption
    simp only [hc, hb]
    rcases ha : apiRequest env
        { t with usageQueries := t.usageQueries ++ [buildUsageParams start endT] } with ⟨r, tb⟩
    have hp : Pres { t with usageQueries := t.usageQueries ++ [buildUsageParams start endT] } tb := by
      have hh := apiRequest_pres env
        { t with usageQueries := t.usageQueries ++ [buildUsageParams start endT] }
      rw [ha] at hh
      exact hh
    obtain ⟨_, _, _, _, _, p6⟩ := hp
    rcases r with e3 | data
    · simp only [ha]
      exact p6
    · simp only [ha]
      rcases hpo : parseUsageObjects data with recs | e3 <;> simp only [hpo] <;> exact p6
  all_goals rcases start with _ | qs <;> rcases endT with _ | qe <;>
    simp [buildUsageParams]

/-- C8 witness: a `fetch_consumption` call on the resolved session with a
start bound of 7 epoch seconds and no end bound records exactly the query
`buildUsageParams (some 7) none`, with the fixed parameters and only a
`time-from` bound. -/
theorem claim_C8_witness :
    (fetchConsumption envEmptyObjects resolvedTrace (some 7) none).2.usageQueries
        = resolvedTrace.usageQueries ++ [buildUsageParams (some 7) none]
    ∧ (buildUsageParams (some 7) none).map Prod.fst
        = ["service_type", "page", "count", "order-dir"]
          ++ (if (some (7 : ℚ)).isSome then ["time-from"] else [])
          ++ (if (none : Option ℚ).isSome then ["time-to"] else [])
    ∧ ("service_type", ParamVal.s "HEAT_METER_READ_SERVICE") ∈ buildUsageParams (some 7) none
    ∧ ("page", ParamVal.n 1) ∈ buildUsageParams (some 7) none
    ∧ ("count", ParamVal.n 100) ∈ buildUsageParams (some 7) none
    ∧ ("order-dir", ParamVal.s "desc") ∈ buildUsageParams (some 7) none
    ∧ (∀ v, ("time-from", v) ∈ buildUsageParams (some 7) none ↔
        ∃ q, some (7 : ℚ) = some q ∧ v = ParamVal.n (msEpoch q))
    ∧ (∀ v, ("time-to", v) ∈ buildUsageParams (some 7) none ↔
        ∃ q, (none : Option ℚ) = some q ∧ v = ParamVal.n (msEpoch q)) :=
  claim_C8_usage_query envEmptyObjects resolvedTrace (some 7) none
    (.str "cid") (.str "bg") rfl rfl

/-- C10. On a resolved session whose usage-events request is answered
without error, a response body lacking the `objects` key — or carrying an
empty `objects` list — makes `fetch_consumption` return the empty record
list rather than raise. -/
theorem claim_C10_empty_objects (env : Env) (t : Trace) (start endT : Option ℚ)
    (cid bgid tok : Json) (st : Nat) (data : Json)
    (hc : t.session.customer_id = some cid)
    (hb : t.session.balance_group_id = some bgid)
    (htok : t.session.access_token = some tok)
    (hresp : env.reqResp t.reqAttempts = .resp st data)
    (hst : st < 400)
    (hobj : data.getOpt "objects" = none ∨ data.getOpt "objects" = some (.arr [])) :
    (fetchConsumption env t start endT).1 = .ok [] := by
  have h4 : ¬(st = 401 ∨ st = 403) := by omega
  have h400 : ¬(400 ≤ st) := by omega
  unfold fetchConsumption apiRequest apiRequestAttempt
  simp only [hc, hb, htok]
  simp only [show ({ t with usageQueries := t.usageQueries
      ++ [buildUsageParams start endT] } : Trace).reqAttempts = t.reqAttempts from rfl,
    hresp, if_neg h4, if_neg h400]
  rcases hobj with h | h <;>
    simp [parseUsageObjects, h, List.mapM, List.mapM.loop, pure, Except.pure]

/-- C10 witness: on the resolved session and the transport answering
`{"objects": []}`, `fetch_consumption` returns the empty list. -/
theorem claim_C10_witness :
    (fetchConsumption envEmptyObjects resolvedTrace none none).1 = .ok [] :=
  claim_C10_empty_objects envEmptyObjects resolvedTrace none none
    (.str "cid") (.str "bg") (.str "tok") 200 (.obj [("objects", .arr [])])
    rfl rfl rfl rfl (by omega) (Or.inr rfl)

end KaizenEnergy
